import Mathlib

/-!
Verification of the deer-flow-go request admission and dispatch core and the
MCP tool client, as a shallow embedding of the Go sources.

Durations are modelled in milliseconds as natural numbers; Go `string`
becomes `String`; fallible paths return `Except String`; channels become
explicit buffers (`List`) with capacities; the nondeterministic outcome of a
Go `select` becomes an explicit event argument, one constructor per `case`.
-/

namespace DeerFlow

/-- Embeds `strings.Contains` from the Go standard library: does `pat` occur as a
contiguous substring of `s`?  Implemented on character lists. -/
def charsStartWith : List Char → List Char → Bool
  | [], _ => true
  | _ :: _, [] => false
  | p :: ps, c :: cs => p == c && charsStartWith ps cs

def charsHaveSub (pat : List Char) : List Char → Bool
  | [] => charsStartWith pat []
  | c :: cs => charsStartWith pat (c :: cs) || charsHaveSub pat cs

def strContainsSub (s pat : String) : Bool :=
  charsHaveSub pat.data s.data

namespace Queue

/-- Embeds `TaskResult` from pkg/queue: `Response *models.ChatResponse; Error error`.
The response payload is abstracted to its `Response` string; the error to its
message. -/
structure TaskResultM where
  response : Option String
  error : Option String
deriving DecidableEq, Repr

/-- Embeds `QueueConfig` from pkg/queue.  Durations in milliseconds. -/
structure QueueConfig where
  MaxWorkers : Int
  QueueSize : Int
  RequestTimeout : Int
  QueueTimeout : Int
deriving DecidableEq, Repr

/-- The default-filling prologue of `NewQueueManager`: non-positive fields are
replaced by 3 workers, queue size 100, 30 s request timeout, 10 s queue
timeout. -/
def newQueueManagerConfig (c : QueueConfig) : QueueConfig :=
  { MaxWorkers := if c.MaxWorkers ≤ 0 then 3 else c.MaxWorkers,
    QueueSize := if c.QueueSize ≤ 0 then 100 else c.QueueSize,
    RequestTimeout := if c.RequestTimeout ≤ 0 then 30000 else c.RequestTimeout,
    QueueTimeout := if c.QueueTimeout ≤ 0 then 10000 else c.QueueTimeout }

/-- The manager's statistics counters (`totalRequests`, `processedCount`,
`failedCount`, `queuedCount`), each updated with `atomic.AddInt64`. -/
structure Counters where
  totalRequests : Nat
  processedCount : Nat
  failedCount : Nat
  queuedCount : Nat
deriving DecidableEq, Repr

/-- Outcome of the enqueue-phase `select` in `SubmitRequest`: the send into
`qm.taskQueue` succeeds, or `time.After(QueueTimeout)` fires, or `ctx.Done()`
fires.  `ts` is the rendering of `qm.config.QueueTimeout` by `%v`; `msg` the
rendering of `ctx.Err()`. -/
inductive EnqueueEvent where
  | accepted
  | queueTimeout (ts : String)
  | ctxDone (msg : String)
deriving DecidableEq, Repr

/-- Outcome of the reply-phase `select` in `SubmitRequest`: `task.Response`
yields a result, or `time.After(RequestTimeout)` fires, or `ctx.Done()`
fires. -/
inductive ReplyEvent where
  | result (r : TaskResultM)
  | requestTimeout (ts : String)
  | ctxDone (msg : String)
deriving DecidableEq, Repr

inductive SubmitOutcome where
  | ok (resp : Option String)
  | err (msg : String)
deriving DecidableEq, Repr

/-- Embeds `QueueManager.SubmitRequest`, step for step.  The running check precedes
task creation; the task id allocation performs `AddInt64(&qm.totalRequests,1)`;
the two `select`s are driven by the event arguments. -/
def SubmitRequest (running : Bool) (c : Counters)
    (e : EnqueueEvent) (rv : ReplyEvent) : Counters × SubmitOutcome :=
  if running = false then
    (c, .err "queue manager is not running")
  else
    let c1 := { c with totalRequests := c.totalRequests + 1 }
    match e with
    | .queueTimeout ts =>
        ({ c1 with failedCount := c1.failedCount + 1 },
         .err ("request queue is full, timeout after " ++ ts))
    | .ctxDone msg =>
        ({ c1 with failedCount := c1.failedCount + 1 }, .err msg)
    | .accepted =>
        let c2 := { c1 with queuedCount := c1.queuedCount + 1 }
        match rv with
        | .result r =>
            match r.error with
            | some msg =>
                ({ c2 with failedCount := c2.failedCount + 1 }, .err msg)
            | none =>
                ({ c2 with processedCount := c2.processedCount + 1 },
                 .ok r.response)
        | .requestTimeout ts =>
            ({ c2 with failedCount := c2.failedCount + 1 },
             .err ("request timeout after " ++ ts))
        | .ctxDone msg =>
            ({ c2 with failedCount := c2.failedCount + 1 }, .err msg)

/-- Capacity of a task's reply channel: `task.Response` is
`make(chan *TaskResult, 1)`. -/
def replyChanCap : Nat := 1

/-- The result-sending `select` at the end of `Worker.processTask`: the send
succeeds when the buffered channel has room, otherwise `time.After(1s)` fires
and the result is dropped with a warning. -/
def trySendReply (ch : List TaskResultM) (r : TaskResultM) : List TaskResultM :=
  if ch.length < replyChanCap then ch ++ [r] else ch

/-- How `w.processor.ProcessRequest` ends inside `Worker.processTask`: it
returns `(response, err)`, or it panics. -/
inductive ProcOutcome where
  | done (resp : Option String) (err : Option String)
  | panicked
deriving DecidableEq, Repr

/-- Embeds `Worker.processTask` restricted to its sends on `task.Response`: on a
normal return, one guarded send of `{Response, Error}`; on a panic, the
`recover` branch performs one unguarded send of the internal error. -/
def processTaskReplies (ch : List TaskResultM) : ProcOutcome → List TaskResultM
  | .done resp err => trySendReply ch ⟨resp, err⟩
  | .panicked => ch ++ [⟨none, some "internal error during task processing"⟩]

/-- The three mutually exclusive ways `QueueManager.dispatcher` finishes a
dequeued task: the `workerTaskQueue <- task` send succeeds and the worker runs
it; that send times out after 1 s; or no worker registers in `workerPool`
within `QueueTimeout` (rendered `ts`). -/
inductive DispatchBranch where
  | assigned (o : ProcOutcome)
  | assignTimeout
  | noWorker
deriving DecidableEq, Repr

/-- All `TaskResult`s ever sent on a dequeued task's reply channel, by
dispatcher branch.  The channel starts empty: the dispatcher hands the task to
at most one worker and nobody else holds a reference to `task.Response`. -/
def dispatchReplies (ts : String) : DispatchBranch → List TaskResultM
  | .assigned o => processTaskReplies [] o
  | .assignTimeout => [⟨none, some "worker assignment timeout"⟩]
  | .noWorker => [⟨none, some ("no available workers, timeout after " ++ ts)⟩]

/-- Protocol state of the `queuedCount` counter: `buf` is the number of tasks
in the `taskQueue` channel buffer, `held` says the single dispatcher goroutine
has dequeued a task and not yet reached its `AddInt64(&qm.queuedCount, -1)`,
`cnt` is the counter itself. -/
structure QState where
  buf : Nat
  held : Bool
  cnt : Nat
deriving DecidableEq, Repr

/-- The counter-relevant atomic steps of the running manager, for queue
capacity `cap`:
* `enqueue` — `qm.taskQueue <- task` succeeds (the buffer has room) and the
  submitter performs `AddInt64(&qm.queuedCount, 1)`;
* `take` — the dispatcher receives the next task (it is sequential, so it
  holds at most one undecremented task at a time);
* `resolve` — the dispatcher finishes the task through any of its branches and
  performs `AddInt64(&qm.queuedCount, -1)`. -/
inductive QStep (cap : Nat) : QState → QState → Prop
  | enqueue (b : Bool) (n k : Nat) : n < cap →
      QStep cap ⟨n, b, k⟩ ⟨n + 1, b, k + 1⟩
  | take (n k : Nat) : 0 < n →
      QStep cap ⟨n, false, k⟩ ⟨n - 1, true, k⟩
  | resolve (n k : Nat) :
      QStep cap ⟨n, true, k⟩ ⟨n, false, k - 1⟩

/-- States reachable from the freshly started manager (empty buffer, idle
dispatcher, zero counter). -/
inductive QReach (cap : Nat) : QState → Prop
  | init : QReach cap ⟨0, false, 0⟩
  | step {s t : QState} : QReach cap s → QStep cap s t → QReach cap t

/-- The lifecycle bits of the manager relevant to restart: the atomic
`running` flag and whether `close(qm.taskQueue)` has happened.  `Start` and
`Stop` never recreate the channel. -/
structure MLife where
  running : Bool
  queueClosed : Bool
deriving DecidableEq, Repr

/-- Embeds `QueueManager.Start`: the CAS on `running` fails with "already running",
otherwise workers and the dispatcher are launched and `running` is set. -/
def startManager (l : MLife) : Except String MLife :=
  if l.running then .error "queue manager is already running"
  else .ok { running := true, queueClosed := l.queueClosed }

/-- Embeds `QueueManager.Stop`: a no-op unless the CAS 1→0 succeeds, in which case it
closes `qm.taskQueue` and signals every worker's `quit` channel, returning
immediately (there is no wait on worker exit). -/
def stopManager (l : MLife) : MLife :=
  if l.running then { running := false, queueClosed := true } else l

/-- Fate of the enqueue attempt inside `SubmitRequest` as a function of the
lifecycle state: the running check fires, or the `select`'s ready case
`qm.taskQueue <- task` is a send on a closed channel — which panics in Go —
or the send can proceed normally. -/
inductive EnqueueAttempt where
  | notRunningError (msg : String)
  | panicSendOnClosed
  | proceeds
deriving DecidableEq, Repr

def submitEnqueueAttempt (l : MLife) : EnqueueAttempt :=
  if l.running = false then .notRunningError "queue manager is not running"
  else if l.queueClosed then .panicSendOnClosed
  else .proceeds

/-- The externally visible actions `QueueManager.Stop` performs, in order:
`close(qm.taskQueue)` then one `worker.Stop()` signal per worker (ids start
at 1).  There is no action that delivers a `TaskResult` and no action that
waits for workers. -/
inductive StopAction where
  | closeTaskQueue
  | signalWorker (id : Nat)
  | sendResult (err : String)
  | waitForWorkers
deriving DecidableEq, Repr

def stopActions (running : Bool) (maxWorkers : Nat) : List StopAction :=
  if running then
    .closeTaskQueue :: (List.range maxWorkers).map (fun i => .signalWorker (i + 1))
  else []

def isSendResult : StopAction → Bool
  | .sendResult _ => true
  | _ => false

def isWaitForWorkers : StopAction → Bool
  | .waitForWorkers => true
  | _ => false

/-- Embeds the constant of `context.WithTimeout(task.Context, 30*time.Second)` in
`Worker.processTask`: the hard-coded execution bound, in milliseconds.  The
config's `RequestTimeout` does not appear here. -/
def workerExecTimeoutMs : Nat := 30000

/-- Deadline of a context derived by `context.WithTimeout`: the earlier of the
parent's deadline (when it has one) and now-plus-timeout. -/
def withTimeoutDeadline (parentDeadline : Option Nat) (now d : Nat) : Nat :=
  match parentDeadline with
  | none => now + d
  | some p => min p (now + d)

/-- The deadline of the execution context `Worker.processTask` hands to
`processor.ProcessRequest`, as a function of the task context's own deadline
and the dispatch instant. -/
def workerExecDeadline (taskDeadline : Option Nat) (dispatchTime : Nat) : Nat :=
  withTimeoutDeadline taskDeadline dispatchTime workerExecTimeoutMs

end Queue

namespace Handlers

/-- The error-classification ladder of `APIHandler.Chat` in pkg/handlers:
given the message of the error `SubmitRequest` returned, the HTTP status and
the `code` field of the JSON body, tested with `strings.Contains` in source
order. -/
def chatErrorStatus (msg : String) : Nat × String :=
  if strContainsSub msg "request queue is full" || strContainsSub msg "timeout after" then
    (503, "QUEUE_TIMEOUT")
  else if strContainsSub msg "request timeout" then
    (408, "REQUEST_TIMEOUT")
  else if strContainsSub msg "context canceled" ||
      strContainsSub msg "context deadline exceeded" then
    (408, "CONTEXT_TIMEOUT")
  else if strContainsSub msg "queue manager is not running" then
    (503, "SERVICE_UNAVAILABLE")
  else
    (500, "INTERNAL_ERROR")

end Handlers

namespace MCP

/-- One line-delimited JSON-RPC frame on the child's stdout, keyed by its
`id`; the rest of the envelope is abstracted into `body`. -/
structure RpcFrame where
  id : Int
  body : String
deriving DecidableEq, Repr

/-- The child-process tool client's mutable state: the `running` flag and the
`requestID` counter. -/
structure ClientState where
  running : Bool
  requestID : Int
deriving DecidableEq, Repr

/-- Embeds `Client.getNextRequestID`: increments and returns the counter. -/
def getNextRequestID (s : ClientState) : Int × ClientState :=
  (s.requestID + 1, { s with requestID := s.requestID + 1 })

/-- Embeds `Client.readResponse`: one `scanner.Scan()` — the next stdout line is
unmarshalled and returned whatever its `id`; an exhausted stream yields
"no response received".  There is no correlation table and no id check. -/
def readResponse (inbound : List RpcFrame) :
    Except String (RpcFrame × List RpcFrame) :=
  match inbound with
  | [] => .error "no response received"
  | f :: rest => .ok (f, rest)

/-- Embeds `Client.ProcessRequest` on a tool method (`tools/call` path), under the
client mutex: check `running`, allocate the request id, write the frame, then
deliver whatever `readResponse` yields as the reply.  The value is
(allocated id, reply frame, new state, remaining inbound stream). -/
def ProcessToolCall (s : ClientState) (inbound : List RpcFrame) :
    Except String (Int × RpcFrame × ClientState × List RpcFrame) :=
  if s.running = false then .error "MCP client is not running"
  else
    let idState := getNextRequestID s
    match readResponse inbound with
    | .error e => .error ("failed to read MCP response: " ++ e)
    | .ok (f, rest) => .ok (idState.1, f, idState.2, rest)

/-- Outcome of `MCPClient.handleGetWeatherForecastRequest` (the in-process
tool client in pkg/mcp): either a `models.MCPError` reply, or a call into
`weatherClient.GetForecast`. -/
inductive ForecastAction where
  | reject (code : Int) (msg : String)
  | callWeather (city : String) (days : Int)
deriving DecidableEq, Repr

/-- Embeds `MCPClient.handleGetWeatherForecastRequest`.  Here `none` for the whole
argument models `req.Params` not being a map; the first component models
`params["city"]` when it is a string; the second models `int(daysFloat)` when
`params["days"]` is a float64 (`none` when absent or of another type, leaving
the default 1). -/
def handleGetWeatherForecastRequest
    (params : Option (Option String × Option Int)) : ForecastAction :=
  match params with
  | none => .reject (-32602) "Invalid params format"
  | some (cityParam, daysParam) =>
    match cityParam with
    | none => .reject (-32602) "Missing or invalid city parameter"
    | some city =>
      if city = "" then .reject (-32602) "Missing or invalid city parameter"
      else
        let days := daysParam.getD 1
        if days ≤ 0 ∨ 5 < days then
          .reject (-32602) "Invalid days parameter: must be between 1 and 5"
        else .callWeather city days

end MCP

namespace Weather

/-- The `days` clamp at the head of `WeatherClient.GetForecast` in
pkg/weather: out-of-range values are replaced by 1. -/
def getForecastEffectiveDays (days : Int) : Int :=
  if days ≤ 0 ∨ 5 < days then 1 else days

/-- The `days` clamp in `handleGetWeatherForecast` of cmd/server (the tool
server's get_weather_forecast handler): out-of-range values are replaced
by 1. -/
def serverForecastEffectiveDays (days : Int) : Int :=
  if days ≤ 0 ∨ 5 < days then 1 else days

end Weather

end DeerFlow

namespace DeerFlow

namespace Queue

/-- C1: For every Task accepted into the queue, exactly one TaskResult is sent
on its reply channel — by the dispatcher's no-worker branch, the dispatcher's
assignment-timeout branch, or the worker that received it (normal result or
panic recovery); never zero, never two. -/
theorem C1_exactly_one_reply (ts : String) (b : DispatchBranch) :
    (dispatchReplies ts b).length = 1 := by
  cases b with
  | assigned o =>
      cases o with
      | done resp err => simp [dispatchReplies, processTaskReplies, trySendReply, replyChanCap]
      | panicked => simp [dispatchReplies, processTaskReplies]
  | assignTimeout => rfl
  | noWorker => rfl

/-- C6: when an admitted task's reply channel yields a `TaskResult`, a nil
error increments `processedCount` and returns the response; a non-nil error
increments `failedCount` by exactly 1 and returns that same error message
unchanged, leaving `processedCount` alone. -/
theorem C6_result_passthrough (c : Counters) (r : TaskResultM) :
    (r.error = none →
      SubmitRequest true c .accepted (.result r) =
        ({ totalRequests := c.totalRequests + 1,
           processedCount := c.processedCount + 1,
           failedCount := c.failedCount,
           queuedCount := c.queuedCount + 1 }, .ok r.response)) ∧
    (∀ msg, r.error = some msg →
      SubmitRequest true c .accepted (.result r) =
        ({ totalRequests := c.totalRequests + 1,
           processedCount := c.processedCount,
           failedCount := c.failedCount + 1,
           queuedCount := c.queuedCount + 1 }, .err msg)) := by
  constructor
  · intro h
    simp [SubmitRequest, h]
  · intro msg h
    simp [SubmitRequest, h]

/-- Witness for C6 at scenario S5: the processor error "processor error" is
passed through unchanged and `failedCount` goes from 0 to exactly 1. -/
theorem C6_result_passthrough_witness :
    SubmitRequest true ⟨0, 0, 0, 0⟩ .accepted
        (.result ⟨none, some "processor error"⟩) =
      ({ totalRequests := 1, processedCount := 0,
         failedCount := 1, queuedCount := 1 }, .err "processor error") :=
  (C6_result_passthrough ⟨0, 0, 0, 0⟩ ⟨none, some "processor error"⟩).2
    "processor error" rfl

/-- C7: with the running flag false, `SubmitRequest` returns the
"queue manager is not running" error immediately, with every counter
(totalRequests, queuedCount, processedCount, failedCount) unchanged — in
particular no task is created and nothing is enqueued. -/
theorem C7_not_running_fails_fast (c : Counters)
    (e : EnqueueEvent) (rv : ReplyEvent) :
    SubmitRequest false c e rv = (c, .err "queue manager is not running") := by
  rfl

/-- Inductive invariant: the counter always equals the buffered tasks plus the
one the dispatcher may be holding, and the buffer respects the channel
capacity. -/
theorem qreach_invariant {cap : Nat} {s : QState} (h : QReach cap s) :
    s.cnt = s.buf + (if s.held then 1 else 0) ∧ s.buf ≤ cap := by
  induction h with
  | init => simp
  | step _ hstep ih =>
      cases hstep with
      | enqueue b n k hlt =>
          have h1 : k = n + (if b then 1 else 0) := ih.1
          refine ⟨show k + 1 = (n + 1) + (if b then 1 else 0) from ?_,
                  show n + 1 ≤ cap from hlt⟩
          cases b <;> simp_all
      | take n k hpos =>
          have h1 : k = n + (if false then 1 else 0) := ih.1
          have h2 : n ≤ cap := ih.2
          simp at h1
          exact ⟨show k = (n - 1) + (if true then 1 else 0) from by simp; omega,
                 show n - 1 ≤ cap from by omega⟩
      | resolve n k =>
          have h1 : k = n + (if true then 1 else 0) := ih.1
          have h2 : n ≤ cap := ih.2
          exact ⟨show k - 1 = n + (if false then 1 else 0) from by simp_all,
                 show n ≤ cap from h2⟩

/-- Helper trace: with queue capacity 1, the state "one task buffered, one
dequeued task held by the dispatcher, counter 2" is reachable — submit,
dispatcher dequeues and blocks waiting for a free worker, second submit
refills the buffer. -/
theorem qreach_cap1_cnt2 : QReach 1 ⟨1, true, 2⟩ := by
  have h1 : QReach 1 ⟨1, false, 1⟩ :=
    QReach.step QReach.init (QStep.enqueue false 0 0 (by decide))
  have h2 : QReach 1 ⟨0, true, 1⟩ :=
    QReach.step h1 (QStep.take 1 1 (by decide))
  exact QReach.step h2 (QStep.enqueue true 0 1 (by decide))

/-- C5 counterexample: with `queue_capacity = 1` the manager reaches a state
whose `queuedCount` is 2 — the counter exceeds the capacity, refuting
"in_queue never exceeds queue_capacity". -/
theorem C5_counterexample :
    QReach 1 ⟨1, true, 2⟩ ∧ (QState.mk 1 true 2).cnt > 1 :=
  ⟨qreach_cap1_cnt2, by decide⟩

/-- C5 amended: in every reachable state `queuedCount` is at most
`queue_capacity + 1` — the buffered tasks plus the single dequeued task the
dispatcher has not yet decremented; the extra 1 is attainable, so the bound is
tight. -/
theorem C5_amended_in_queue_bound {cap : Nat} {s : QState}
    (h : QReach cap s) : s.cnt ≤ cap + 1 := by
  obtain ⟨heq, hle⟩ := qreach_invariant h
  rw [heq]
  split <;> omega

/-- Witness for C5 amended at the reachable state of the counterexample trace:
capacity 1, counter 2 ≤ 1 + 1. -/
theorem C5_amended_witness : (QState.mk 1 true 2).cnt ≤ 1 + 1 :=
  C5_amended_in_queue_bound qreach_cap1_cnt2

/-- C3 counterexample: `Stop` on a running manager with 2 workers performs
exactly close-queue and two worker signals — it sends no `TaskResult` to any
queued task (so none is failed with a `Shutdown` classification at stop time)
and performs no wait for workers to exit; moreover the error the dispatcher
later produces when draining the queue, "no available workers, timeout
after 10s", carries no shutdown classification. -/
theorem C3_counterexample :
    stopActions true 2 =
      [.closeTaskQueue, .signalWorker 1, .signalWorker 2] ∧
    (stopActions true 2).all
      (fun a => !isSendResult a && !isWaitForWorkers a) = true ∧
    dispatchReplies "10s" .noWorker =
      [⟨none, some "no available workers, timeout after 10s"⟩] ∧
    strContainsSub "no available workers, timeout after 10s" "hutdown" = false := by
  refine ⟨by decide, by decide, rfl, by decide⟩

/-- C3 amended: `stop()` on a running manager closes the task queue and
signals each of the `n` workers, then returns without waiting for workers and
without delivering any `TaskResult`; tasks already queued are resolved later
by the dispatcher through its ordinary branches (worker assignment,
assignment timeout, or the no-available-workers error once no worker
registers within `queue_timeout`) — no `Shutdown` classification exists. -/
theorem C3_amended_stop_behavior (n : Nat) (ts : String) :
    stopActions true n =
      .closeTaskQueue :: (List.range n).map (fun i => .signalWorker (i + 1)) ∧
    (stopActions true n).all
      (fun a => !isSendResult a && !isWaitForWorkers a) = true ∧
    dispatchReplies ts .noWorker =
      [⟨none, some ("no available workers, timeout after " ++ ts)⟩] := by
  refine ⟨rfl, ?_, rfl⟩
  simp only [stopActions, if_pos, List.all_eq_true, List.mem_cons, List.mem_map]
  rintro a (h | ⟨i, _, h⟩) <;> subst h <;> rfl

/-- C9: after `Start` then `Stop`, a second `Start` succeeds (the CAS sees
`running = 0`) and leaves the closed task queue in place, so the next
`SubmitRequest` that reaches the enqueue `select` panics by sending on a
closed channel: a stopped manager is not safely restartable. -/
theorem C9_restart_panics :
    startManager ⟨false, false⟩ = .ok ⟨true, false⟩ ∧
    stopManager ⟨true, false⟩ = ⟨false, true⟩ ∧
    startManager ⟨false, true⟩ = .ok ⟨true, true⟩ ∧
    submitEnqueueAttempt ⟨true, true⟩ = .panicSendOnClosed := by
  refine ⟨rfl, rfl, rfl, rfl⟩

/-- C10: the execution context a worker hands to the Query Processor has its
deadline bounded by dispatch + 30 s (exactly dispatch + 30 s when the task's
own context carries no deadline), a constant of `processTask`; so whenever the
configured `RequestTimeout` exceeds 30 s (which `NewQueueManager` leaves
unchanged), the execution window is strictly smaller than the processing
timeout — a `processing_timeout` above 30 s can never be fully used. -/
theorem C10_exec_deadline_hardcoded (cfg : QueueConfig) (td : Option Nat)
    (dt : Nat) (h : 30000 < cfg.RequestTimeout) :
    workerExecDeadline td dt ≤ dt + workerExecTimeoutMs ∧
    workerExecDeadline none dt = dt + 30000 ∧
    workerExecTimeoutMs = 30000 ∧
    (newQueueManagerConfig cfg).RequestTimeout = cfg.RequestTimeout ∧
    ((dt : Int) + workerExecTimeoutMs <
      (dt : Int) + (newQueueManagerConfig cfg).RequestTimeout) := by
  have hpos : ¬ cfg.RequestTimeout ≤ 0 := by omega
  have hkeep : (newQueueManagerConfig cfg).RequestTimeout = cfg.RequestTimeout := by
    simp [newQueueManagerConfig, hpos]
  refine ⟨?_, rfl, rfl, hkeep, ?_⟩
  · cases td with
    | none => exact Nat.le_refl _
    | some p => exact Nat.min_le_right _ _
  · rw [hkeep]
    have : (workerExecTimeoutMs : Int) = 30000 := by rfl
    omega

/-- Witness for C10 with processing_timeout 60 s, no task deadline,
dispatch at 0. -/
theorem C10_exec_deadline_hardcoded_witness :
    workerExecDeadline none 0 ≤ 0 + workerExecTimeoutMs ∧
    workerExecDeadline none 0 = 0 + 30000 ∧
    workerExecTimeoutMs = 30000 ∧
    (newQueueManagerConfig ⟨3, 100, 60000, 10000⟩).RequestTimeout = 60000 ∧
    ((0 : Int) + workerExecTimeoutMs <
      (0 : Int) + (newQueueManagerConfig ⟨3, 100, 60000, 10000⟩).RequestTimeout) :=
  C10_exec_deadline_hardcoded ⟨3, 100, 60000, 10000⟩ none 0 (by decide)

end Queue

namespace Handlers

/-- C4 (code bug): the error produced when `processing_timeout` elapses after
admission is "request timeout after ...", which contains "timeout after", so
`APIHandler.Chat`'s first branch classifies it 503/QUEUE_TIMEOUT — the
dedicated 408/REQUEST_TIMEOUT branch below it is unreachable for this message.
QueueFull and NoWorkerAvailable do map to 503 as claimed. -/
theorem C4_processing_timeout_gets_503 :
    (Queue.SubmitRequest true ⟨0, 0, 0, 0⟩ .accepted (.requestTimeout "500ms")).2 =
      .err "request timeout after 500ms" ∧
    chatErrorStatus "request timeout after 500ms" = (503, "QUEUE_TIMEOUT") ∧
    chatErrorStatus "request queue is full, timeout after 500ms" =
      (503, "QUEUE_TIMEOUT") ∧
    chatErrorStatus "no available workers, timeout after 10s" =
      (503, "QUEUE_TIMEOUT") := by
  refine ⟨rfl, by decide, by decide, by decide⟩

end Handlers

namespace MCP

/-- C2 counterexample: with outstanding request id 2 (counter at 1) and an
inbound stream whose next frame has id 99 while the frame with the matching
id 2 follows, `ProcessRequest` delivers the id-99 frame as the reply and
leaves the id-2 frame in the stream — the reply is not the frame whose id
equals the request id, and the unknown-id frame is not discarded. -/
theorem C2_counterexample :
    ProcessToolCall ⟨true, 1⟩ [⟨99, "stray"⟩, ⟨2, "matching"⟩] =
      .ok (2, ⟨99, "stray"⟩, ⟨true, 2⟩, [⟨2, "matching"⟩]) ∧
    (99 : Int) ≠ 2 := by
  exact ⟨rfl, by decide⟩

/-- C2 amended: `Client.ProcessRequest` serializes calls under the client
mutex and delivers as the reply the next inbound frame, whatever its id; no
frame is matched against the request id and none is discarded. -/
theorem C2_amended_reply_is_next_frame (s : ClientState) (f : RpcFrame)
    (rest : List RpcFrame) (h : s.running = true) :
    ProcessToolCall s (f :: rest) =
      .ok (s.requestID + 1, f, ⟨true, s.requestID + 1⟩, rest) := by
  simp [ProcessToolCall, getNextRequestID, readResponse, h]

/-- Witness for C2 amended: a running client with counter 5 replies with the
next frame (id 7) for its request id 6. -/
theorem C2_amended_reply_is_next_frame_witness :
    ProcessToolCall ⟨true, 5⟩ [⟨7, "x"⟩] = .ok (6, ⟨7, "x"⟩, ⟨true, 6⟩, []) :=
  C2_amended_reply_is_next_frame ⟨true, 5⟩ ⟨7, "x"⟩ [] rfl

/-- C8: a get_weather_forecast request with a valid city and a days parameter
outside 1..5 is rejected by the MCP client with code -32602 and the message
"Invalid days parameter: must be between 1 and 5", never reaching the weather
client; and both tool-side forecast paths (WeatherClient.GetForecast and the
tool server's handler) enforce the same bound: they leave `d` unchanged
exactly when 1 ≤ d ≤ 5. -/
theorem C8_forecast_days_bound (city : String) (days d : Int)
    (hcity : city ≠ "") (hdays : days < 1 ∨ 5 < days) :
    handleGetWeatherForecastRequest (some (some city, some days)) =
      .reject (-32602) "Invalid days parameter: must be between 1 and 5" ∧
    (Weather.getForecastEffectiveDays d = d ↔ 1 ≤ d ∧ d ≤ 5) ∧
    (Weather.serverForecastEffectiveDays d = d ↔ 1 ≤ d ∧ d ≤ 5) := by
  refine ⟨?_, ?_, ?_⟩
  · simp only [handleGetWeatherForecastRequest, Option.getD_some]
    rw [if_neg hcity, if_pos (by omega)]
  · simp only [Weather.getForecastEffectiveDays]
    split <;> omega
  · simp only [Weather.serverForecastEffectiveDays]
    split <;> omega

/-- Witness for C8 at city "Beijing" and days = 6. -/
theorem C8_forecast_days_bound_witness :
    handleGetWeatherForecastRequest (some (some "Beijing", some 6)) =
      .reject (-32602) "Invalid days parameter: must be between 1 and 5" ∧
    (Weather.getForecastEffectiveDays 6 = 6 ↔ 1 ≤ (6 : Int) ∧ (6 : Int) ≤ 5) ∧
    (Weather.serverForecastEffectiveDays 6 = 6 ↔ 1 ≤ (6 : Int) ∧ (6 : Int) ≤ 5) :=
  C8_forecast_days_bound "Beijing" 6 6 (by decide) (by decide)

end MCP

end DeerFlow
